import Mathlib

/-!
Verification of the customer-purchase dashboard (src/app.py).

The script is a linear pipeline: load a CSV, clean it, filter by
user-selected countries / products / date range, aggregate, forecast,
and offer a CSV download of the filtered subset.  We embed each step as
an executable Lean function over a list of transaction rows and prove
the specified properties about them.
-/

/-- A calendar date, as produced by parsing a timestamp at date
granularity (the claims never distinguish times within a day). -/
structure Date where
  year : Nat
  month : Nat
  day : Nat
deriving DecidableEq, Repr

/-- Order key of a date: chronological for calendar dates
(month in 1..12, day in 1..31). -/
def Date.key (d : Date) : Nat :=
  d.year * 10000 + d.month * 100 + d.day

instance : LE Date := ⟨fun a b => a.key ≤ b.key⟩

instance (a b : Date) : Decidable (a ≤ b) :=
  inferInstanceAs (Decidable (a.key ≤ b.key))

/-- One transaction record of the CSV
(InvoiceNo, Description, Quantity, InvoiceDate, UnitPrice, CustomerID, Country).
`invoiceDate = none` models a timestamp that failed to parse
(pd.to_datetime with errors coerce gives NaT); `customerID = none`
models a missing CustomerID. -/
structure Row where
  invoiceNo : String
  description : String
  quantity : Int
  invoiceDate : Option Date
  unitPrice : Rat
  customerID : Option Nat
  country : String
deriving DecidableEq, Repr

/-- Cleaning step of load_data (src/app.py lines 18-19):
df = df.dropna(subset=[CustomerID]);
df = df[(df.Quantity > 0) & (df.UnitPrice > 0)].
Parsing already happened in the row representation; the derived
YearMonth column is recomputed from invoiceDate where needed. -/
def loadData (rows : List Row) : List Row :=
  (rows.filter (fun r => r.customerID.isSome)).filter
    (fun r => decide (0 < r.quantity) && decide (0 < r.unitPrice))

/-- The sidebar selection: countries, products and the date range. -/
structure Selection where
  countries : List String
  products : List String
  startDate : Date
  endDate : Date

/-- Date-range mask of a single row: pandas comparison of a timestamp
column with the endpoints; a NaT date compares false. -/
def dateInRange (d : Option Date) (lo hi : Date) : Bool :=
  match d with
  | none => false
  | some d => decide (lo ≤ d) && decide (d ≤ hi)

/-- Filter step (src/app.py lines 51-56): conjunction of the
country-membership, product-membership and date-range masks. -/
def filteredDf (df : List Row) (sel : Selection) : List Row :=
  df.filter (fun r =>
    decide (r.country ∈ sel.countries) &&
    decide (r.description ∈ sel.products) &&
    dateInRange r.invoiceDate sel.startDate sel.endDate)

/-- Injection of an integer quantity into the rationals (numeric
promotion pandas performs implicitly when multiplying columns). -/
def intAsRat (n : Int) : Rat :=
  ⟨n, 1, Nat.one_ne_zero, Nat.coprime_one_right n.natAbs⟩

/-- Revenue of one row: Quantity * UnitPrice. -/
def revenue (r : Row) : Rat :=
  intAsRat r.quantity * r.unitPrice

/-- Total Revenue KPI (line 62):
(filtered_df.Quantity * filtered_df.UnitPrice).sum(). -/
def totalRevenue (df : List Row) : Rat :=
  (df.map revenue).sum

section GroupBy

variable {α κ β : Type} [DecidableEq κ]

/-- The distinct key values of a groupby.  pandas emits groups in
ascending key order; every property proved in this development is
invariant under the order of this list, so we keep the order produced
by dedup. -/
def groupKeys (key : α → κ) (l : List α) : List κ :=
  (l.map key).dedup

/-- groupby(key)[col].sum(): one entry per distinct key, carrying the sum
of val over the rows with that key. -/
def groupSumsBy [AddCommMonoid β] (key : α → κ) (val : α → β)
    (l : List α) : List (κ × β) :=
  (groupKeys key l).map
    (fun k => (k, ((l.filter (fun r => decide (key r = k))).map val).sum))

/-- groupby(key)[col].mean(): sum of val over the group divided by the
group size. -/
def groupMeansBy (key : α → κ) (val : α → Rat) (l : List α) :
    List (κ × Rat) :=
  (groupKeys key l).map
    (fun k =>
      let g := l.filter (fun r => decide (key r = k))
      (k, (g.map val).sum / (g.length : Rat)))

/-- sort_values(ascending=False) on a keyed series: sort the (key, value)
pairs by descending value. -/
def sortDescByVal [LinearOrder β] (l : List (κ × β)) : List (κ × β) :=
  List.insertionSort (fun a b => b.2 ≤ a.2) l

end GroupBy

/-- Revenue Breakdown by Country (lines 74-79):
filtered_df.groupby(Country).apply(sum of Quantity * UnitPrice),
sorted by Total Revenue descending. -/
def revenueByCountry (df : List Row) : List (String × Rat) :=
  sortDescByVal (groupSumsBy Row.country revenue df)

/-- Per-product quantity totals (line 114, before head(10)):
groupby(Description)[Quantity].sum().sort_values(ascending=False),
applied to filtered_df at the call site. -/
def productTotalsSorted (df : List Row) : List (String × Int) :=
  sortDescByVal (groupSumsBy Row.description Row.quantity df)

/-- Top 10 Best-Selling Products (line 114). -/
def topProducts (df : List Row) : List (String × Int) :=
  (productTotalsSorted df).take 10

/-- Per-country quantity totals (line 137, before head(10)):
df.groupby(Country)[Quantity].sum().sort_values(ascending=False). -/
def countryTotalsSorted (df : List Row) : List (String × Int) :=
  sortDescByVal (groupSumsBy Row.country Row.quantity df)

/-- Top 10 Countries by Sales (line 137). -/
def topCountries (df : List Row) : List (String × Int) :=
  (countryTotalsSorted df).take 10

/-- CostPrice column (line 98): UnitPrice * 0.6. -/
def costPrice (r : Row) : Rat :=
  r.unitPrice * ((6 : Rat) / 10)

/-- ProfitMargin column (line 99): UnitPrice - CostPrice. -/
def profitMargin (r : Row) : Rat :=
  r.unitPrice - costPrice r

/-- Per-product mean profit margins (line 100, before head(10)):
df.groupby(Description)[ProfitMargin].mean().sort_values(ascending=False). -/
def profitMarginsSorted (df : List Row) : List (String × Rat) :=
  sortDescByVal (groupMeansBy Row.description profitMargin df)

/-- Profit Margin Analysis (line 100). -/
def profitByProduct (df : List Row) : List (String × Rat) :=
  (profitMarginsSorted df).take 10

/-- Continuous day numbering of a calendar date (proleptic Gregorian),
so that differences of timestamps in days can be taken; the standard
days-from-civil computation. -/
def daysFromCivil (date : Date) : Nat :=
  let y := if date.month ≤ 2 then date.year - 1 else date.year
  let era := y / 400
  let yoe := y % 400
  let mp := (date.month + 9) % 12
  let doy := (153 * mp + 2) / 5 + date.day - 1
  let doe := yoe * 365 + yoe / 4 - yoe / 100 + doy
  era * 146097 + doe

/-- Latest parsed invoice date of a dataframe in day numbering
(df[InvoiceDate].max() skips NaT; the script assumes a nonempty
dataframe, we default to day 0 on an empty one). -/
def maxDateDays (df : List Row) : Nat :=
  ((df.filterMap Row.invoiceDate).map daysFromCivil).foldl Nat.max 0

/-- Key for grouping by customer; groupby drops rows whose key is
missing, so this is only applied to rows with a present CustomerID. -/
def custKey (r : Row) : Nat :=
  r.customerID.getD 0

/-- RFM Customer Segmentation (lines 105-109): per customer,
Recency = (df[InvoiceDate].max() - x.max()).days,
Frequency = count of InvoiceNo, Monetary = sum of UnitPrice. -/
def rfm (df : List Row) : List (Nat × Int × Nat × Rat) :=
  let dfc := df.filter (fun r => r.customerID.isSome)
  (groupKeys custKey dfc).map
    (fun k =>
      let g := dfc.filter (fun r => decide (custKey r = k))
      (k, (maxDateDays df : Int) - (maxDateDays g : Int),
        g.length, (g.map Row.unitPrice).sum))

/-- The displayed RFM table (line 110):
rfm.sort_values(by=Monetary, ascending=False).head(10). -/
def rfmTop (df : List Row) : List (Nat × Int × Nat × Rat) :=
  (List.insertionSort (fun a b => b.2.2.2 ≤ a.2.2.2) (rfm df)).take 10

/-- Year-month key of a row; only applied to rows with a parsed date
(groupby drops NaT period keys). -/
def monthKey (r : Row) : Nat × Nat :=
  match r.invoiceDate with
  | some d => (d.year, d.month)
  | none => (0, 0)

/-- Monthly Sales Trend (line 129) and the forecast base (line 147):
df.groupby(YearMonth)[Quantity].sum(), NaT keys dropped. -/
def monthlySales (df : List Row) : List ((Nat × Nat) × Int) :=
  groupSumsBy monthKey Row.quantity (df.filter (fun r => r.invoiceDate.isSome))

/-- Integer encoding of a year-month period (line 148): the period
prints as YYYY-MM, the dash is removed and the digits are read as an
integer, giving year * 100 + month. -/
def encMonth (p : Nat × Nat) : Nat :=
  p.1 * 100 + p.2

/-- df_sales after line 148: (encoded month, summed Quantity) pairs. -/
def dfSales (df : List Row) : List (Nat × Int) :=
  (monthlySales df).map (fun p => (encMonth p.1, p.2))

/-- df_sales[InvoiceDate].max() (line 157): the largest encoded month. -/
def maxEnc (df : List Row) : Nat :=
  ((dfSales df).map Prod.fst).foldl Nat.max 0

/-- Ordinary least squares fit of y against x over the points
(sklearn LinearRegression on one feature): returns (slope, intercept).
On a degenerate design matrix the rational division by zero yields 0
where sklearn would produce numerical noise; no claim depends on the
coefficients there. -/
def olsFit (pts : List (Nat × Int)) : Rat × Rat :=
  let n : Rat := (pts.length : Rat)
  let sx : Rat := (pts.map (fun p => (p.1 : Rat))).sum
  let sy : Rat := (pts.map (fun p => (p.2 : Rat))).sum
  let sxy : Rat := (pts.map (fun p => (p.1 : Rat) * (p.2 : Rat))).sum
  let sxx : Rat := (pts.map (fun p => (p.1 : Rat) * (p.1 : Rat))).sum
  let slope := (n * sxy - sx * sy) / (n * sxx - sx * sx)
  (slope, (sy - slope * sx) / n)

/-- future_months (line 157): df_sales[InvoiceDate].max() + i
for i in range(1, n_months + 1). -/
def futureMonths (df : List Row) (n : Nat) : List Nat :=
  (List.range n).map (fun i => maxEnc df + (i + 1))

/-- model.predict for the one-feature linear model: slope * x + intercept. -/
def predictLine (c : Rat × Rat) (x : Nat) : Rat :=
  c.1 * (x : Rat) + c.2

/-- predicted_sales (line 158): the fitted line evaluated at each entry
of future_months. -/
def predictedSales (df : List Row) (n : Nat) : List Rat :=
  (futureMonths df n).map (predictLine (olsFit (dfSales df)))

/-- Modelled from the spec: the calendar month immediately following a
given year-month period. -/
def nextCalendarMonth (p : Nat × Nat) : Nat × Nat :=
  if p.2 = 12 then (p.1 + 1, 1) else (p.1, p.2 + 1)

/-- Modelled from the spec: the n calendar months immediately following
a given year-month period, in order. -/
def calendarMonthsAfter (p : Nat × Nat) : Nat → List (Nat × Nat)
  | 0 => []
  | n + 1 => nextCalendarMonth p :: calendarMonthsAfter (nextCalendarMonth p) n

/-- The latest observed month of the dataframe (the period whose integer
encoding is maximal, i.e. the chronologically last month with data). -/
def latestMonth (df : List Row) : Nat × Nat :=
  ((monthlySales df).map Prod.fst).foldl
    (fun acc p => if encMonth acc ≤ encMonth p then p else acc) (0, 0)

/-- Modelled from the spec (claim C6): the prediction inputs the claim
describes, namely the integer encodings of the n calendar months
immediately following the latest observed month. -/
def specForecastInputs (df : List Row) (n : Nat) : List Nat :=
  (calendarMonthsAfter (latestMonth df) n).map encMonth

/-- The record a row contributes to the exported CSV (line 180):
to_csv(index=False) writes every column value of the row, here kept as
the tuple of field values together with the derived YearMonth column. -/
def rowRecord (r : Row) :
    String × String × Int × Option Date × Rat × Option Nat × String ×
      Option (Nat × Nat) :=
  (r.invoiceNo, r.description, r.quantity, r.invoiceDate, r.unitPrice,
    r.customerID, r.country, r.invoiceDate.map (fun d => (d.year, d.month)))

/-- The CSV download (lines 180-181): one record per row of
filtered_df, in order. -/
def csvExport (df : List Row) :
    List (String × String × Int × Option Date × Rat × Option Nat × String ×
      Option (Nat × Nat)) :=
  df.map rowRecord

/-- Everything the dashboard renders in one run of the script, as a
function of the raw rows, the sidebar selection, and the requested
forecast length. -/
structure DashOut where
  totalRevenueOut : Rat
  totalSalesOut : Int
  totalCustomersOut : Nat
  revenueByCountryOut : List (String × Rat)
  profitByProductOut : List (String × Rat)
  rfmOut : List (Nat × Int × Nat × Rat)
  topProductsOut : List (String × Int)
  monthlySalesOut : List ((Nat × Nat) × Int)
  topCountriesOut : List (String × Int)
  forecastInputsOut : List Nat
  forecastValuesOut : List Rat
  csvOut : List (String × String × Int × Option Date × Rat × Option Nat ×
    String × Option (Nat × Nat))

/-- One run of the script: load and clean, filter by the sidebar
selection, then compute every rendered output.  The KPI block, the
revenue breakdown, the top-products chart and the CSV download are
computed from filtered_df; the profit-margin, RFM, monthly-trend,
top-countries and forecast sections are computed from the full cleaned
df (src/app.py lines 96-158 use df, not filtered_df). -/
def runDashboard (rows : List Row) (sel : Selection) (nMonths : Nat) :
    DashOut :=
  let df := loadData rows
  let fdf := filteredDf df sel
  { totalRevenueOut := totalRevenue fdf
    totalSalesOut := (fdf.map Row.quantity).sum
    totalCustomersOut := (fdf.filterMap Row.customerID).dedup.length
    revenueByCountryOut := revenueByCountry fdf
    profitByProductOut := profitByProduct df
    rfmOut := rfmTop df
    topProductsOut := topProducts fdf
    monthlySalesOut := monthlySales df
    topCountriesOut := topCountries df
    forecastInputsOut := futureMonths df nMonths
    forecastValuesOut := predictedSales df nMonths
    csvOut := csvExport fdf }

/-- The top-N contract of claim C4 for a descending-sorted aggregation:
the published top-n list is sorted by descending value, its length is
n capped by the number of groups, and every published value is at least
every value it cut off. -/
def TopNContract {κ β : Type} [LinearOrder β] (sorted : List (κ × β))
    (n ngroups : Nat) : Prop :=
  List.Pairwise (fun a b => b.2 ≤ a.2) (sorted.take n) ∧
  (sorted.take n).length = min n ngroups ∧
  ∀ a ∈ sorted.take n, ∀ b ∈ sorted.drop n, b.2 ≤ a.2

/-- A sample cleaned row used to instantiate theorems. -/
def sampleRow : Row :=
  { invoiceNo := "536365"
    description := "WHITE HANGING HEART T-LIGHT HOLDER"
    quantity := 6
    invoiceDate := some ⟨2010, 12, 1⟩
    unitPrice := 3
    customerID := some 17850
    country := "United Kingdom" }

/-- A second sample row in another country and month. -/
def sampleRow2 : Row :=
  { invoiceNo := "536527"
    description := "SET OF 6 SOLDIER SKITTLES"
    quantity := 2
    invoiceDate := some ⟨2011, 12, 5⟩
    unitPrice := 4
    customerID := some 12662
    country := "Germany" }

/-- A row whose InvoiceDate failed to parse (NaT) but whose other
fields pass every cleaning check. -/
def noDateRow : Row :=
  { invoiceNo := "536600"
    description := "JUMBO BAG RED RETROSPOT"
    quantity := 1
    invoiceDate := none
    unitPrice := 2
    customerID := some 13047
    country := "France" }

/-- A sample selection matching sampleRow. -/
def sampleSel : Selection :=
  { countries := ["United Kingdom"]
    products := ["WHITE HANGING HEART T-LIGHT HOLDER"]
    startDate := ⟨2010, 12, 1⟩
    endDate := ⟨2011, 12, 9⟩ }

/-- A second sample selection, selecting nothing. -/
def emptySel : Selection :=
  { countries := []
    products := []
    startDate := ⟨2010, 12, 1⟩
    endDate := ⟨2011, 12, 9⟩ }

/-- Membership in the cleaned dataframe, unfolded: kept iff present in
the input with CustomerID present and positive Quantity and UnitPrice. -/
theorem mem_loadData (rows : List Row) (r : Row) :
    r ∈ loadData rows ↔
      (r ∈ rows ∧ r.customerID.isSome = true ∧ 0 < r.quantity ∧ 0 < r.unitPrice) := by
  unfold loadData
  rw [List.mem_filter, List.mem_filter]
  simp only [Bool.and_eq_true, decide_eq_true_eq]
  tauto

/-- Membership in the filtered dataframe, unfolded. -/
theorem mem_filteredDf (df : List Row) (sel : Selection) (r : Row) :
    r ∈ filteredDf df sel ↔
      (r ∈ df ∧ r.country ∈ sel.countries ∧ r.description ∈ sel.products ∧
        ∃ d, r.invoiceDate = some d ∧ sel.startDate ≤ d ∧ d ≤ sel.endDate) := by
  unfold filteredDf
  rw [List.mem_filter]
  simp only [Bool.and_eq_true, decide_eq_true_eq]
  constructor
  · rintro ⟨hm, ⟨hc, hp⟩, hd⟩
    refine ⟨hm, hc, hp, ?_⟩
    cases hdate : r.invoiceDate with
    | none => simp [dateInRange, hdate] at hd
    | some d =>
        simp only [dateInRange, hdate, Bool.and_eq_true, decide_eq_true_eq] at hd
        exact ⟨d, rfl, hd.1, hd.2⟩
  · rintro ⟨hm, hc, hp, d, hdate, hlo, hhi⟩
    refine ⟨hm, ⟨hc, hp⟩, ?_⟩
    simp only [dateInRange, hdate, Bool.and_eq_true, decide_eq_true_eq]
    exact ⟨hlo, hhi⟩

/-- Claim C1: a row of the cleaned dataframe appears in filtered_df iff
its Country is among the selected countries, its Description among the
selected products, and its InvoiceDate lies between the selected start
and end dates inclusive. -/
theorem c1_filter_intersective (df : List Row) (sel : Selection) (r : Row)
    (hr : r ∈ df) :
    r ∈ filteredDf df sel ↔
      (r.country ∈ sel.countries ∧ r.description ∈ sel.products ∧
        ∃ d, r.invoiceDate = some d ∧ sel.startDate ≤ d ∧ d ≤ sel.endDate) := by
  rw [mem_filteredDf]
  exact and_iff_right hr

/-- Witness for C1 at a concrete row and selection. -/
theorem c1_filter_intersective_witness :
    sampleRow ∈ filteredDf [sampleRow] sampleSel ↔
      (sampleRow.country ∈ sampleSel.countries ∧
        sampleRow.description ∈ sampleSel.products ∧
        ∃ d, sampleRow.invoiceDate = some d ∧
          sampleSel.startDate ≤ d ∧ d ≤ sampleSel.endDate) :=
  c1_filter_intersective [sampleRow] sampleSel sampleRow (by simp)

/-- Claim C2: a row of the input survives the cleaning step iff its
CustomerID is present, its Quantity is positive and its UnitPrice is
positive; consequently every cleaned row satisfies the three
invariants. -/
theorem c2_cleaning_invariants (rows : List Row) (r : Row) :
    (r ∈ loadData rows ↔
      (r ∈ rows ∧ r.customerID.isSome = true ∧ 0 < r.quantity ∧ 0 < r.unitPrice)) ∧
    (r ∈ loadData rows →
      r.customerID.isSome = true ∧ 0 < r.quantity ∧ 0 < r.unitPrice) := by
  refine ⟨mem_loadData rows r, fun h => ?_⟩
  have := (mem_loadData rows r).mp h
  tauto

/-- Witness for C2: the cleaning keeps a concrete well-formed row. -/
theorem c2_cleaning_invariants_witness :
    sampleRow ∈ loadData [sampleRow] :=
  (c2_cleaning_invariants [sampleRow] sampleRow).1.mpr
    ⟨by simp, by decide, by decide, by decide⟩

/-- Summing a group-indexed family after adding x to the group of c
adds x to the total, provided c indexes exactly one group. -/
theorem sum_map_ite_add {κ β : Type} [DecidableEq κ] [AddCommMonoid β]
    (f : κ → β) (x : β) (c : κ) :
    ∀ ks : List κ, ks.Nodup → c ∈ ks →
      (ks.map (fun k => if c = k then x + f k else f k)).sum
        = x + (ks.map f).sum := by
  intro ks
  induction ks with
  | nil => intro _ hc; cases hc
  | cons k0 ks ih =>
      intro hnd hc
      rw [List.map_cons, List.map_cons, List.sum_cons, List.sum_cons]
      rcases List.mem_cons.mp hc with h | h
      · subst h
        rw [if_pos rfl]
        have hrest : ks.map (fun k => if c = k then x + f k else f k)
            = ks.map f := by
          refine List.map_congr_left (fun a ha => ?_)
          have hne : c ≠ a := by
            rintro rfl
            exact (List.nodup_cons.mp hnd).1 ha
          rw [if_neg hne]
        rw [hrest, add_assoc]
      · have hne : c ≠ k0 := by
          rintro rfl
          exact (List.nodup_cons.mp hnd).1 h
        rw [if_neg hne, ih (List.nodup_cons.mp hnd).2 h, add_left_comm]

/-- Partition property of a groupby: when the key list is duplicate-free
and covers every row, the per-group sums add up to the global sum. -/
theorem sum_groups_eq_total {α κ β : Type} [DecidableEq κ] [AddCommMonoid β]
    (key : α → κ) (val : α → β) (ks : List κ) (hnd : ks.Nodup) :
    ∀ l : List α, (∀ r ∈ l, key r ∈ ks) →
      (ks.map (fun k =>
        ((l.filter (fun r => decide (key r = k))).map val).sum)).sum
        = (l.map val).sum := by
  intro l
  induction l with
  | nil => intro _; simp
  | cons a l ih =>
      intro hcov
      have hak : key a ∈ ks := hcov a (List.mem_cons_self a l)
      have hcovl : ∀ r ∈ l, key r ∈ ks :=
        fun r hr => hcov r (List.mem_cons_of_mem a hr)
      have hterm : ∀ k ∈ ks,
          ((List.filter (fun r => decide (key r = k)) (a :: l)).map val).sum
            = if key a = k
              then val a +
                ((List.filter (fun r => decide (key r = k)) l).map val).sum
              else ((List.filter (fun r => decide (key r = k)) l).map val).sum := by
        intro k _
        by_cases h : key a = k
        · simp [List.filter_cons, h]
        · simp [List.filter_cons, h]
      rw [List.map_congr_left hterm,
        sum_map_ite_add
          (fun k => ((List.filter (fun r => decide (key r = k)) l).map val).sum)
          (val a) (key a) ks hnd hak,
        ih hcovl, List.map_cons, List.sum_cons]

/-- The values of a groupby-sum read back the sums over their groups. -/
theorem mem_groupSumsBy {α κ β : Type} [DecidableEq κ] [AddCommMonoid β]
    (key : α → κ) (val : α → β) (l : List α) (p : κ × β)
    (hp : p ∈ groupSumsBy key val l) :
    p.2 = ((l.filter (fun r => decide (key r = p.1))).map val).sum := by
  unfold groupSumsBy at hp
  obtain ⟨k, _, he⟩ := List.mem_map.mp hp
  cases he
  rfl

/-- Claim C3: the Total Revenue KPI is the sum of Quantity * UnitPrice
over the filtered rows, and each country entry of the revenue breakdown
is the sum of Quantity * UnitPrice over the filtered rows of that
country. -/
theorem c3_revenue_sums (df : List Row) (sel : Selection) :
    totalRevenue (filteredDf df sel)
      = ((filteredDf df sel).map
          (fun r => intAsRat r.quantity * r.unitPrice)).sum ∧
    ∀ p ∈ revenueByCountry (filteredDf df sel),
      p.2 = (((filteredDf df sel).filter
          (fun r => decide (r.country = p.1))).map
            (fun r => intAsRat r.quantity * r.unitPrice)).sum := by
  refine ⟨rfl, fun p hp => ?_⟩
  unfold revenueByCountry sortDescByVal at hp
  have hp' : p ∈ groupSumsBy Row.country revenue (filteredDf df sel) :=
    (List.perm_insertionSort _ _).mem_iff.mp hp
  exact mem_groupSumsBy Row.country revenue (filteredDf df sel) p hp'

/-- Witness for C3: the single United Kingdom entry of the breakdown of
a one-row dataframe carries the revenue of that row. -/
theorem c3_revenue_sums_witness :
    (18 : Rat) = (((filteredDf [sampleRow] sampleSel).filter
        (fun r => decide (r.country = "United Kingdom"))).map
          (fun r => intAsRat r.quantity * r.unitPrice)).sum :=
  (c3_revenue_sums [sampleRow] sampleSel).2 ("United Kingdom", 18)
    (by with_unfolding_all decide)

/-- Claim C10: the per-country revenue breakdown partitions the filtered
data, so its Total Revenue values add up to the Total Revenue KPI. -/
theorem c10_breakdown_partitions (df : List Row) (sel : Selection) :
    ((revenueByCountry (filteredDf df sel)).map Prod.snd).sum
      = totalRevenue (filteredDf df sel) := by
  unfold revenueByCountry sortDescByVal totalRevenue
  rw [((List.perm_insertionSort _
      (groupSumsBy Row.country revenue (filteredDf df sel))).map
        Prod.snd).sum_eq]
  unfold groupSumsBy groupKeys
  rw [List.map_map]
  exact sum_groups_eq_total Row.country revenue _
    (List.nodup_dedup _) (filteredDf df sel)
    (fun r hr => List.mem_dedup.mpr (List.mem_map_of_mem Row.country hr))

/-- Sorting by descending value yields a list that is pairwise
descending in its values. -/
theorem pairwise_sortDescByVal {κ β : Type} [LinearOrder β]
    (l : List (κ × β)) :
    List.Pairwise (fun a b : κ × β => b.2 ≤ a.2) (sortDescByVal l) := by
  unfold sortDescByVal
  haveI : IsTotal (κ × β) (fun a b : κ × β => b.2 ≤ a.2) :=
    ⟨fun a b => le_total b.2 a.2⟩
  haveI : IsTrans (κ × β) (fun a b : κ × β => b.2 ≤ a.2) :=
    ⟨fun _ _ _ h1 h2 => le_trans h2 h1⟩
  exact List.sorted_insertionSort _ l

/-- In a pairwise-related list, everything kept by take n is related to
everything discarded by drop n. -/
theorem pairwise_take_drop {γ : Type} {R : γ → γ → Prop} {l : List γ}
    (h : List.Pairwise R l) (n : Nat) :
    ∀ a ∈ l.take n, ∀ b ∈ l.drop n, R a b := by
  have h2 : List.Pairwise R (l.take n ++ l.drop n) := by
    rw [List.take_append_drop]; exact h
  exact (List.pairwise_append.mp h2).2.2

/-- Truncating a descending-by-value sort to n entries meets the top-N
contract relative to the length of the underlying keyed list. -/
theorem topNContract_sortDesc {κ β : Type} [LinearOrder β]
    (l : List (κ × β)) (n : Nat) :
    TopNContract (sortDescByVal l) n l.length := by
  refine ⟨List.Pairwise.sublist (List.take_sublist n _)
      (pairwise_sortDescByVal l), ?_,
    pairwise_take_drop (pairwise_sortDescByVal l) n⟩
  rw [List.length_take]
  unfold sortDescByVal
  rw [List.length_insertionSort]

/-- Claim C4: each top-N aggregation of the dashboard (top products by
summed quantity over filtered_df, top countries by summed quantity over
df, top products by mean profit margin over df) is its descending sort
truncated to 10 entries, is sorted descending, has exactly
min 10 (number of groups) entries, and every retained aggregated value
is at least every truncated one. -/
theorem c4_topN_contracts (rows : List Row) (sel : Selection) :
    topProducts (filteredDf (loadData rows) sel)
        = (productTotalsSorted (filteredDf (loadData rows) sel)).take 10 ∧
    TopNContract (productTotalsSorted (filteredDf (loadData rows) sel)) 10
      (((filteredDf (loadData rows) sel).map Row.description).dedup.length) ∧
    topCountries (loadData rows) = (countryTotalsSorted (loadData rows)).take 10 ∧
    TopNContract (countryTotalsSorted (loadData rows)) 10
      (((loadData rows).map Row.country).dedup.length) ∧
    profitByProduct (loadData rows) = (profitMarginsSorted (loadData rows)).take 10 ∧
    TopNContract (profitMarginsSorted (loadData rows)) 10
      (((loadData rows).map Row.description).dedup.length) := by
  refine ⟨rfl, ?_, rfl, ?_, rfl, ?_⟩
  · have h := topNContract_sortDesc
      (groupSumsBy Row.description Row.quantity (filteredDf (loadData rows) sel)) 10
    rwa [groupSumsBy, groupKeys, List.length_map] at h
  · have h := topNContract_sortDesc
      (groupSumsBy Row.country Row.quantity (loadData rows)) 10
    rwa [groupSumsBy, groupKeys, List.length_map] at h
  · have h := topNContract_sortDesc
      (groupMeansBy Row.description profitMargin (loadData rows)) 10
    rwa [groupMeansBy, groupKeys, List.length_map] at h

/-- Witness for C4 at a concrete dataframe and selection. -/
theorem c4_topN_contracts_witness :
    topProducts (filteredDf (loadData [sampleRow, sampleRow2]) sampleSel)
        = (productTotalsSorted (filteredDf (loadData [sampleRow, sampleRow2]) sampleSel)).take 10 ∧
    TopNContract (productTotalsSorted (filteredDf (loadData [sampleRow, sampleRow2]) sampleSel)) 10
      (((filteredDf (loadData [sampleRow, sampleRow2]) sampleSel).map Row.description).dedup.length) ∧
    topCountries (loadData [sampleRow, sampleRow2])
        = (countryTotalsSorted (loadData [sampleRow, sampleRow2])).take 10 ∧
    TopNContract (countryTotalsSorted (loadData [sampleRow, sampleRow2])) 10
      (((loadData [sampleRow, sampleRow2]).map Row.country).dedup.length) ∧
    profitByProduct (loadData [sampleRow, sampleRow2])
        = (profitMarginsSorted (loadData [sampleRow, sampleRow2])).take 10 ∧
    TopNContract (profitMarginsSorted (loadData [sampleRow, sampleRow2])) 10
      (((loadData [sampleRow, sampleRow2]).map Row.description).dedup.length) :=
  c4_topN_contracts [sampleRow, sampleRow2] sampleSel

/-- Claim C5: for every requested forecast length between 6 and 36 the
forecast produces exactly that many predicted values. -/
theorem c5_forecast_length (rows : List Row) (n : Nat)
    (h6 : 6 ≤ n) (h36 : n ≤ 36) :
    (predictedSales (loadData rows) n).length = n := by
  unfold predictedSales futureMonths
  rw [List.length_map, List.length_map, List.length_range]

/-- Witness for C5 at the default slider value of 12 months. -/
theorem c5_forecast_length_witness :
    6 ≤ 12 ∧ 12 ≤ 36 ∧
      (predictedSales (loadData [sampleRow, sampleRow2]) 12).length = 12 :=
  ⟨by decide, by decide,
    c5_forecast_length [sampleRow, sampleRow2] 12 (by decide) (by decide)⟩

/-- Claim C6, at the failing input: with a single transaction in
December 2011 the latest observed month encodes to 201112, so the code
predicts at the integer inputs 201113..201118, while the encodings of
the six calendar months following December 2011 are 201201..201206.
The code thus feeds the regression integers that denote no calendar
month whenever the horizon crosses a year boundary. -/
theorem c6_forecast_inputs_diverge :
    futureMonths (loadData [sampleRow2]) 6
        = [201113, 201114, 201115, 201116, 201117, 201118] ∧
    specForecastInputs (loadData [sampleRow2]) 6
        = [201201, 201202, 201203, 201204, 201205, 201206] ∧
    futureMonths (loadData [sampleRow2]) 6
        ≠ specForecastInputs (loadData [sampleRow2]) 6 := by
  refine ⟨?_, ?_, ?_⟩ <;> with_unfolding_all decide

/-- Counterexample to claim C7 as stated: a row whose InvoiceDate
failed to parse (NaT) but whose CustomerID is present and whose
Quantity and UnitPrice are positive is NOT dropped: it is present in
the cleaned dataframe returned by load_data. -/
theorem c7_nat_rows_kept_counterexample :
    noDateRow.invoiceDate = none ∧ noDateRow ∈ loadData [noDateRow] :=
  ⟨rfl, by decide⟩

/-- Claim C7 as amended: malformed invoice dates become null during
parsing, but load_data does not drop such rows; a null-date row is kept
by the cleaning exactly when CustomerID is present and Quantity and
UnitPrice are positive, and it is excluded from the date-filtered
subset filtered_df. -/
theorem c7_nat_rows_survive_cleaning (rows : List Row) (r : Row)
    (sel : Selection) (hdate : r.invoiceDate = none) :
    (r ∈ loadData rows ↔
      (r ∈ rows ∧ r.customerID.isSome = true ∧ 0 < r.quantity ∧ 0 < r.unitPrice)) ∧
    r ∉ filteredDf (loadData rows) sel := by
  refine ⟨mem_loadData rows r, fun h => ?_⟩
  obtain ⟨-, -, -, d, hd, -⟩ := (mem_filteredDf (loadData rows) sel r).mp h
  rw [hdate] at hd
  cases hd

/-- Witness for the amended C7 at the concrete NaT row. -/
theorem c7_nat_rows_survive_cleaning_witness :
    (noDateRow ∈ loadData [noDateRow] ↔
      (noDateRow ∈ [noDateRow] ∧ noDateRow.customerID.isSome = true ∧
        0 < noDateRow.quantity ∧ 0 < noDateRow.unitPrice)) ∧
    noDateRow ∉ filteredDf (loadData [noDateRow]) sampleSel :=
  c7_nat_rows_survive_cleaning [noDateRow] noDateRow sampleSel rfl

/-- Claim C8: the CSV download is exactly the filtered subset: it has
one record per row of filtered_df, the i-th record is the record of the
i-th filtered row (same order, same field values), and every record
comes from a filtered row. -/
theorem c8_csv_is_filtered_subset (rows : List Row) (sel : Selection)
    (i : Nat) :
    (csvExport (filteredDf (loadData rows) sel)).length
        = (filteredDf (loadData rows) sel).length ∧
    (csvExport (filteredDf (loadData rows) sel))[i]?
        = ((filteredDf (loadData rows) sel)[i]?).map rowRecord ∧
    ∀ x ∈ csvExport (filteredDf (loadData rows) sel),
      ∃ r ∈ filteredDf (loadData rows) sel, x = rowRecord r := by
  refine ⟨List.length_map _ _, List.getElem?_map rowRecord _ i, fun x hx => ?_⟩
  obtain ⟨r, hr, he⟩ := List.mem_map.mp hx
  exact ⟨r, hr, he.symm⟩

/-- Witness for C8 at a concrete dataframe, selection and index. -/
theorem c8_csv_is_filtered_subset_witness :
    (csvExport (filteredDf (loadData [sampleRow]) sampleSel)).length
        = (filteredDf (loadData [sampleRow]) sampleSel).length ∧
    (csvExport (filteredDf (loadData [sampleRow]) sampleSel))[0]?
        = ((filteredDf (loadData [sampleRow]) sampleSel)[0]?).map rowRecord ∧
    ∀ x ∈ csvExport (filteredDf (loadData [sampleRow]) sampleSel),
      ∃ r ∈ filteredDf (loadData [sampleRow]) sampleSel, x = rowRecord r :=
  c8_csv_is_filtered_subset [sampleRow] sampleSel 0

/-- Claim C9: the profit-margin analysis, the RFM table, the monthly
sales trend, the top-countries table and the sales forecast are
computed from the full cleaned dataframe, so two runs on the same rows
that differ only in the sidebar filter selection render these five
sections identically. -/
theorem c9_filter_noninterference (rows : List Row) (sel1 sel2 : Selection)
    (nMonths : Nat) :
    (runDashboard rows sel1 nMonths).profitByProductOut
        = (runDashboard rows sel2 nMonths).profitByProductOut ∧
    (runDashboard rows sel1 nMonths).rfmOut
        = (runDashboard rows sel2 nMonths).rfmOut ∧
    (runDashboard rows sel1 nMonths).monthlySalesOut
        = (runDashboard rows sel2 nMonths).monthlySalesOut ∧
    (runDashboard rows sel1 nMonths).topCountriesOut
        = (runDashboard rows sel2 nMonths).topCountriesOut ∧
    (runDashboard rows sel1 nMonths).forecastInputsOut
        = (runDashboard rows sel2 nMonths).forecastInputsOut ∧
    (runDashboard rows sel1 nMonths).forecastValuesOut
        = (runDashboard rows sel2 nMonths).forecastValuesOut :=
  ⟨rfl, rfl, rfl, rfl, rfl, rfl⟩
